import Mathlib

/-!
AI-Access-Guard: verification of the query-pipeline specification.

Shallow embedding of the AI-Access-Guard frontend (src/UI) together with a
model of the backend pipeline described by the specification, and proofs of
the spec's claims about frame shapes, close codes, the blank-input guard,
terminal-frame uniqueness, cache/cost invariants and metrics summaries.
-/

namespace AccessGuard

/-! ## Client chat embedding (src/UI/src/pages/AIChat.tsx) -/

/-- The `Message` interface of `AIChat.tsx` declares the union
`'user' | 'assistant' | 'blocked' | 'connection' | 'error'` for the `type`
field of a chat frame. -/
inductive MessageType
  | user
  | assistant
  | blocked
  | connection
  | error
deriving DecidableEq

/-- The members of the declared `Message.type` union, as strings, in the
order they appear in `AIChat.tsx`. -/
def declaredMessageTypes : List String :=
  ["user", "assistant", "blocked", "connection", "error"]

/-- Parse a `type` string into the declared union; strings outside the
union (such as `pii_detected`) have no corresponding member. -/
def messageTypeOfString (s : String) : Option MessageType :=
  if s = "user" then some MessageType.user
  else if s = "assistant" then some MessageType.assistant
  else if s = "blocked" then some MessageType.blocked
  else if s = "connection" then some MessageType.connection
  else if s = "error" then some MessageType.error
  else none

/-- The layer caption rendered for a blocked message in `AIChat.tsx`:
`msg.layer === 'llama_guard' ? 'Llama Guard' : 'Guardrails'`. -/
def layerLabel (layer : String) : String :=
  if layer = "llama_guard" then "Llama Guard" else "Guardrails"

/-- A chat message as declared in `AIChat.tsx`: a `type`, a `message` body
and optional `timestamp`, `category`, `layer` and `reason` fields. -/
structure Message where
  type : MessageType
  message : String
  timestamp : Option String
  category : Option String
  layer : Option String
  reason : Option String
deriving DecidableEq

/-- JavaScript's `!text.trim()` guard: true exactly when the text is empty
or consists only of whitespace. -/
def isBlank (s : String) : Bool :=
  s.toList.all Char.isWhitespace

/-- `WebSocket.OPEN` (readyState 1). -/
def wsOPEN : Nat := 1

/-- The part of the browser `WebSocket` object the chat code reads. -/
structure WSRef where
  readyState : Nat
deriving DecidableEq

/-- The component state of `AIChat` touched by `sendMessage`: the
transcript, the input box, the error banner, the socket ref, plus the list
of payloads transmitted on the socket. -/
structure ChatState where
  messages : List Message
  inputMessage : String
  connectionError : String
  ws : Option WSRef
  sent : List String
deriving DecidableEq

/-- `sendMessage` from `AIChat.tsx`: a blank input returns at once; a
missing or non-OPEN socket only sets the connection-error text; otherwise
the user message is appended to the transcript, the payload is sent and
the input box is cleared. -/
def sendMessage (now : String) (s : ChatState) : ChatState :=
  if isBlank s.inputMessage then s
  else
    match s.ws with
    | none => { s with connectionError := "Not connected. Please reconnect." }
    | some w =>
      if w.readyState ≠ wsOPEN then
        { s with connectionError := "Not connected. Please reconnect." }
      else
        { s with
          messages := s.messages ++
            [{ type := MessageType.user, message := s.inputMessage,
               timestamp := some now, category := none, layer := none,
               reason := none }]
          sent := s.sent ++ [s.inputMessage]
          inputMessage := "" }

/-- `ws.onmessage` from `AIChat.tsx`: a frame that parses is appended to
the transcript; a frame that fails to parse leaves it unchanged. -/
def onmessageUpdate (prev : List Message) (parsed : Option Message) : List Message :=
  match parsed with
  | some data => prev ++ [data]
  | none => prev

/-- What `ws.onclose` does with a close code: the error banner text and
whether a logout-and-redirect to the sign-in page is scheduled. -/
structure CloseHandling where
  connectionError : String
  reauth : Bool
deriving DecidableEq

/-- `ws.onclose` from `AIChat.tsx`: code 4002 and code 4001 each set a
re-login banner and schedule logout plus redirect; every other code only
offers a reconnect. -/
def oncloseAction (code : Nat) : CloseHandling :=
  if code = 4002 then
    { connectionError := "Invalid or expired token. Please re-login.", reauth := true }
  else if code = 4001 then
    { connectionError := "No token provided. Please re-login.", reauth := true }
  else
    { connectionError := "Connection closed. Click reconnect to try again.", reauth := false }

/-! ## Query endpoint embedding (src/UI/src/pages/Chat.tsx) -/

/-- A JSON value, as far as the declared endpoint shapes need one. -/
inductive JsonVal
  | str (s : String)
  | num (q : ℚ)
  | nat (n : Nat)
  | boolean (b : Bool)
  | arr (xs : List JsonVal)
  | obj (fields : List (String × JsonVal))

/-- The request body `handleSubmit` posts to `/query`:
`{ query: query.trim(), model: selectedModel }`. -/
structure QueryRequest where
  query : String
  model : String

/-- The `QueryResponse` interface of `Chat.tsx`, field for field. -/
structure QueryResponse where
  answer : String
  sources : List String
  cache_hit : Bool
  response_time : ℚ
  tokens_used : Nat
  cost : ℚ
  model_used : String
  out_of_scope : Bool

/-- Serialize a query request to its JSON fields, in declaration order. -/
def QueryRequest.toFields (r : QueryRequest) : List (String × JsonVal) :=
  [("query", JsonVal.str r.query), ("model", JsonVal.str r.model)]

/-- Serialize a query response to its JSON fields, in declaration order. -/
def QueryResponse.toFields (r : QueryResponse) : List (String × JsonVal) :=
  [("answer", JsonVal.str r.answer),
   ("sources", JsonVal.arr (r.sources.map JsonVal.str)),
   ("cache_hit", JsonVal.boolean r.cache_hit),
   ("response_time", JsonVal.num r.response_time),
   ("tokens_used", JsonVal.nat r.tokens_used),
   ("cost", JsonVal.num r.cost),
   ("model_used", JsonVal.str r.model_used),
   ("out_of_scope", JsonVal.boolean r.out_of_scope)]

/-- `handleSubmit` from `Chat.tsx`, up to the request: a blank query sets
the error text and posts nothing; otherwise the trimmed query and the
selected model are posted to `/query`. -/
def handleSubmit (query selectedModel : String) : Option QueryRequest × Option String :=
  if isBlank query then (none, some "Please enter a query")
  else (some { query := query, model := selectedModel }, none)

/-! ## Metrics endpoint embedding (src/UI/src/pages/Metrics.tsx) -/

/-- The field names of the `MetricsData` interface in `Metrics.tsx`, in
declaration order. -/
def metricsDataFields : List String :=
  ["total_queries", "cache_hits", "api_calls", "cache_hit_rate_percent",
   "total_cost", "money_saved", "queries_last_24h", "queries_last_hour",
   "avg_tokens_per_query", "total_tokens_used", "cost_breakdown"]

/-- The field names of the per-model entries of `cost_breakdown` in the
`MetricsData` interface. -/
def costBreakdownEntryFields : List String :=
  ["queries", "tokens", "cost"]

/-- The summary URL `fetchMetrics` requests for a given range. -/
def metricsUrl (range : String) : String :=
  "http://localhost:8000/metrics?range=" ++ range

/-- The hourly-series sub-resource requested when the range is `daily`. -/
def hourlyUrl : String := "http://localhost:8000/metrics/hourly?hours=24"

/-- The daily-series sub-resource requested when the range is `monthly`. -/
def monthlyUrl : String := "http://localhost:8000/metrics/monthly?days=30"

/-- The chart-series sub-resource `fetchMetrics` requests for a range:
`daily` fetches the hourly buckets, any other range the monthly (per-day)
buckets. -/
def chartUrl (range : String) : String :=
  if range = "daily" then hourlyUrl else monthlyUrl

/-- The field names of the per-bucket entries of the `HourlyData`
interface (used for both the hourly and the per-day series). -/
def timeBucketFields : List String :=
  ["total", "cache_hits", "api_calls", "tokens"]

/-! ## Backend pipeline model

The backend (`app.py`, `llama_guard.py`) is not part of the available
sources; the pipeline below is modelled from the specification's component
design (§2, §4, §6), which the frontend consumes over the wire protocol. -/

/-- Modelled from the spec: the three role levels of the identity context
(§3), resolved from a verified credential. -/
inductive Role
  | employee
  | manager
  | founder
deriving DecidableEq

/-- Modelled from the spec: one detected PII entity (§3), with its span,
confidence and the original and masked values. -/
structure PIIDetection where
  entity_type : String
  startPos : Nat
  endPos : Nat
  score : ℚ
  original_value : String
  masked_value : String
deriving DecidableEq

/-- Modelled from the spec: the verdict of the external content-safety
classifier (§4.2). -/
structure Verdict where
  safe : Bool
  category : String
  confidence : ℚ

/-- Modelled from the spec: the decision of the policy engine (§4.3). -/
structure PolicyDecision where
  allow : Bool
  reason : String
  restricted_context : String

/-- Modelled from the spec: the result of one model invocation (§2 item 6):
an answer, a token count and a cost. -/
structure ModelAnswer where
  answer : String
  model_used : String
  tokens : Nat
  cost : ℚ

/-- Modelled from the spec: the external adapters the orchestrator calls
(§2): PII scan, safety classifier, policy engine rule table and the model
invocation, each treated as an opaque function of its inputs. -/
structure Adapters where
  piiScan : String → String × List PIIDetection
  classify : String → Verdict
  policy : Role → String → PolicyDecision
  model : String → ModelAnswer

/-- Modelled from the spec: the frame types of the server-to-client wire
protocol (§6). -/
inductive FrameType
  | connection
  | pii_detected
  | blocked
  | assistant
  | error
deriving DecidableEq

/-- Modelled from the spec: one server-to-client frame (§6), with the
optional fields a blocked or pii_detected frame carries. -/
structure Frame where
  type : FrameType
  message : String
  layer : Option String
  category : Option String
  reason : Option String
  detections : List PIIDetection
deriving DecidableEq

/-- A frame that ends a turn: everything but the on-open connection
banner. -/
def Frame.isTerminal (f : Frame) : Bool :=
  match f.type with
  | FrameType.connection => false
  | _ => true

/-- Modelled from the spec: a semantic-cache entry (§3). -/
structure CacheEntry where
  answer_text : String
  source_refs : List String
  model_used : String
  created_at : Nat
  hit_count : Nat
deriving DecidableEq

/-- Modelled from the spec: the role-scoped semantic cache (§4.4, default
role-scoped keys), as an association list from (role, normalized query)
to entries. -/
abbrev Cache : Type := List ((Role × String) × CacheEntry)

/-- Modelled from the spec: deterministic key normalization (§4.4),
realized as lowercasing. -/
def normalizeQuery (q : String) : String :=
  String.mk (q.toList.map Char.toLower)

/-- Look a key up in the cache. -/
def lookupEntry (c : Cache) (k : Role × String) : Option CacheEntry :=
  match c with
  | [] => none
  | (k2, e) :: rest => if k2 = k then some e else lookupEntry rest k

/-- Bump the hit count of the entry under a key (cache-hit bookkeeping,
§4.4). -/
def bumpHit (c : Cache) (k : Role × String) : Cache :=
  match c with
  | [] => []
  | (k2, e) :: rest =>
    if k2 = k then (k2, { e with hit_count := e.hit_count + 1 }) :: rest
    else (k2, e) :: bumpHit rest k

/-- Store an entry under a key, whole-entry replace, last-store-wins
(§4.4). -/
def storeEntry (c : Cache) (k : Role × String) (e : CacheEntry) : Cache :=
  match c with
  | [] => [(k, e)]
  | (k2, e2) :: rest =>
    if k2 = k then (k2, e) :: rest else (k2, e2) :: storeEntry rest k e

/-- Modelled from the spec: one ledger record (§3): whether the answer
came from the cache, the tokens and cost spent, the model, and the layer
that blocked the turn if one did. -/
structure QueryOutcome where
  role : Role
  cache_hit : Bool
  tokens_used : Nat
  cost : ℚ
  model : String
  blocked_by : Option String
deriving DecidableEq

/-- Modelled from the spec: the result of the screening phase (§4.6): a
PII rejection, a safety block, a policy block, or clearance to resolve
with the masked text. -/
inductive ScreenResult
  | piiRejected (masked : String) (detections : List PIIDetection)
  | blockedSafety (category : String) (confidence : ℚ)
  | blockedPolicy (reason : String)
  | proceed (masked : String) (restricted : String)

/-- Modelled from the spec: the `Screening` phase (§4.6) applies the PII
Firewall, then Content Safety, then the Policy Engine, short-circuiting on
the first veto; a nonempty PII detection report terminates the turn with a
`pii_detected` frame (§3 invariant: `pii_detected` is terminal). Returns
the result together with the list of stages that ran. -/
def screen (ad : Adapters) (role : Role) (input : String) :
    ScreenResult × List String :=
  let scanned := ad.piiScan input
  if scanned.2.isEmpty = false then
    (ScreenResult.piiRejected scanned.1 scanned.2, ["pii_firewall"])
  else
    let v := ad.classify scanned.1
    if v.safe = false then
      (ScreenResult.blockedSafety v.category v.confidence,
       ["pii_firewall", "content_safety"])
    else
      let p := ad.policy role scanned.1
      if p.allow = false then
        (ScreenResult.blockedPolicy p.reason,
         ["pii_firewall", "content_safety", "policy_engine"])
      else
        (ScreenResult.proceed scanned.1 p.restricted_context,
         ["pii_firewall", "content_safety", "policy_engine"])

/-- Everything one turn produces: the frames emitted to the client, the
stages that ran, the cache afterwards, and the ledger records written. -/
structure TurnResult where
  frames : List Frame
  stagesRun : List String
  cache : Cache
  outcomes : List QueryOutcome

/-- Modelled from the spec: the `Resolving` phase (§4.6): cache lookup;
on hit assemble the assistant response directly and record a zero-cost
outcome (§3: cache reuse costs nothing); on miss invoke the model, store
the entry and record the spent tokens and cost. -/
def resolve (ad : Adapters) (role : Role) (c : Cache) (query : String) :
    Frame × List String × Cache × QueryOutcome :=
  let k : Role × String := (role, normalizeQuery query)
  match lookupEntry c k with
  | some e =>
    ({ type := FrameType.assistant, message := e.answer_text, layer := none,
       category := none, reason := none, detections := [] },
     ["semantic_cache"], bumpHit c k,
     { role := role, cache_hit := true, tokens_used := 0, cost := 0,
       model := e.model_used, blocked_by := none })
  | none =>
    let m := ad.model query
    ({ type := FrameType.assistant, message := m.answer, layer := none,
       category := none, reason := none, detections := [] },
     ["semantic_cache", "model"],
     storeEntry c k
       { answer_text := m.answer, source_refs := [], model_used := m.model_used,
         created_at := 0, hit_count := 0 },
     { role := role, cache_hit := false, tokens_used := m.tokens,
       cost := m.cost, model := m.model_used, blocked_by := none })

/-- Modelled from the spec: one full turn of the pipeline orchestrator
(§4.6). Empty or whitespace-only input is rejected immediately with an
`error` frame and no stage runs; otherwise screening runs and a veto
short-circuits to the terminal `pii_detected` or `blocked` frame with a
ledger record naming the blocking layer; a cleared turn resolves through
the cache or the model. Exactly one frame is emitted per turn. -/
def runTurn (ad : Adapters) (role : Role) (c : Cache) (input : String) :
    TurnResult :=
  if isBlank input then
    { frames := [{ type := FrameType.error, message := "Empty message",
                   layer := none, category := none, reason := none,
                   detections := [] }],
      stagesRun := [], cache := c, outcomes := [] }
  else
    match screen ad role input with
    | (ScreenResult.piiRejected masked dets, st) =>
      { frames := [{ type := FrameType.pii_detected,
                     message := masked, layer := none, category := none,
                     reason := none, detections := dets }],
        stagesRun := st, cache := c,
        outcomes := [{ role := role, cache_hit := false, tokens_used := 0,
                       cost := 0, model := "", blocked_by := some "pii_firewall" }] }
    | (ScreenResult.blockedSafety category _, st) =>
      { frames := [{ type := FrameType.blocked,
                     message := "Your message was blocked",
                     layer := some "content_safety", category := some category,
                     reason := some "Content safety violation",
                     detections := [] }],
        stagesRun := st, cache := c,
        outcomes := [{ role := role, cache_hit := false, tokens_used := 0,
                       cost := 0, model := "", blocked_by := some "content_safety" }] }
    | (ScreenResult.blockedPolicy reason, st) =>
      { frames := [{ type := FrameType.blocked,
                     message := "Your message was blocked",
                     layer := some "guardrails", category := some "policy",
                     reason := some reason, detections := [] }],
        stagesRun := st, cache := c,
        outcomes := [{ role := role, cache_hit := false, tokens_used := 0,
                       cost := 0, model := "", blocked_by := some "guardrails" }] }
    | (ScreenResult.proceed masked _, st) =>
      let r := resolve ad role c masked
      { frames := [r.1], stagesRun := st ++ r.2.1, cache := r.2.2.1,
        outcomes := [r.2.2.2] }

/-- True when no assistant frame coexists with a blocked or pii_detected
frame in a turn's output. -/
def noAssistantAfterBlock (fs : List Frame) : Bool :=
  !(fs.any (fun f => f.type == FrameType.blocked || f.type == FrameType.pii_detected) &&
    fs.any (fun f => f.type == FrameType.assistant))

/-! ## Connect / close-code model (spec §6, §4.6) -/

/-- Modelled from the spec: the state of the bearer credential presented
on chat connect (§6, §7): absent, invalid, expired, or valid. -/
inductive CredState
  | missing
  | invalid
  | expired
  | valid
deriving DecidableEq

/-- Modelled from the spec: the close code the chat transport uses
(§6): 4001 for a missing credential, 4002 for an invalid or expired one,
none (session opens) for a valid one. -/
def closeCodeFor : CredState → Option Nat
  | CredState.missing => some 4001
  | CredState.invalid => some 4002
  | CredState.expired => some 4002
  | CredState.valid => none

/-- How a connect attempt ends: the close code, if the transport was
closed, and how many turns were processed before that. -/
structure ConnectResult where
  closeCode : Option Nat
  turnsProcessed : Nat
deriving DecidableEq

/-- Modelled from the spec: connecting to the chat transport (§4.6): a
credential that fails verification closes the transport with its close
code before any turn is processed; a valid one opens the session. -/
def connectChat (c : CredState) : ConnectResult :=
  match closeCodeFor c with
  | some code => { closeCode := some code, turnsProcessed := 0 }
  | none => { closeCode := none, turnsProcessed := 0 }

/-! ## Cost & Metrics Ledger model (spec §4.5) -/

/-- The records of the ledger over some range: an append-only list of
query outcomes (§3). -/
abbrev Ledger : Type := List QueryOutcome

/-- Number of recorded cache hits. -/
def cacheHits (L : Ledger) : Nat :=
  (L.filter (fun o => o.cache_hit)).length

/-- Number of recorded model invocations: outcomes that were neither
served from the cache nor blocked. -/
def apiCalls (L : Ledger) : Nat :=
  (L.filter (fun o => !o.cache_hit && o.blocked_by == none)).length

/-- Total recorded cost over the range. -/
def totalCost (L : Ledger) : ℚ :=
  (L.map (fun o => o.cost)).sum

/-- Modelled from the spec: the historical average cost per model call
(§4.5), derived from the recorded costs, not a constant. -/
def avgCostPerModelCall (L : Ledger) : ℚ :=
  totalCost L / (apiCalls L : ℚ)

/-- The distinct model names appearing in the ledger. -/
def ledgerModels (L : Ledger) : List String :=
  (L.map (fun o => o.model)).dedup

/-- Cost recorded against one model. -/
def modelCost (L : Ledger) (m : String) : ℚ :=
  ((L.filter (fun o => o.model == m)).map (fun o => o.cost)).sum

/-- Modelled from the spec: the summary shape of §4.5. -/
structure Summary where
  total_queries : Nat
  cache_hits : Nat
  api_calls : Nat
  total_cost : ℚ
  money_saved : ℚ
  cost_breakdown_by_model : List (String × ℚ)
deriving DecidableEq

/-- Modelled from the spec: `summary(range)` (§4.5); `money_saved` is
`cache_hits × average_cost_per_model_call`, computed from the recorded
costs. -/
def summary (L : Ledger) : Summary :=
  { total_queries := L.length
    cache_hits := cacheHits L
    api_calls := apiCalls L
    total_cost := totalCost L
    money_saved := (cacheHits L : ℚ) * avgCostPerModelCall L
    cost_breakdown_by_model := (ledgerModels L).map (fun m => (m, modelCost L m)) }

/-! ## Concrete fixtures used by the witnesses -/

/-- A benign adapter instance: no PII found, everything safe and allowed,
a fixed model answer. -/
def demoAdapters : Adapters :=
  { piiScan := fun t => (t, [])
    classify := fun _ => { safe := true, category := "safe", confidence := 1 }
    policy := fun _ _ => { allow := true, reason := "", restricted_context := "" }
    model := fun q => { answer := q, model_used := "llama", tokens := 10, cost := 1 / 100 } }

/-- A cache holding one answer for the employee query key `q`. -/
def demoCache : Cache :=
  [((Role.employee, "q"),
    { answer_text := "cached", source_refs := [], model_used := "llama",
      created_at := 0, hit_count := 3 })]

/-- The outcome a cache hit on `demoCache` records. -/
def demoHitOutcome : QueryOutcome :=
  { role := Role.employee, cache_hit := true, tokens_used := 0, cost := 0,
    model := "llama", blocked_by := none }

/-- A cache-hit ledger record. -/
def hitRecord : QueryOutcome :=
  { role := Role.employee, cache_hit := true, tokens_used := 0, cost := 0,
    model := "m", blocked_by := none }

/-- A model-call ledger record of the given cost. -/
def callRecord (c : ℚ) : QueryOutcome :=
  { role := Role.employee, cache_hit := false, tokens_used := 5, cost := c,
    model := "m", blocked_by := none }

/-- The user message `sendMessage` appends for a given draft and
timestamp. -/
def userMessageOf (text now : String) : Message :=
  { type := MessageType.user, message := text, timestamp := some now,
    category := none, layer := none, reason := none }

/-- A disconnected chat state holding the non-blank draft `hi`. -/
def demoDisconnected : ChatState :=
  { messages := [], inputMessage := "hi", connectionError := "", ws := none,
    sent := [] }

/-- A chat state whose input box holds a single space. -/
def demoBlankState : ChatState :=
  { messages := [], inputMessage := " ", connectionError := "", ws := none,
    sent := [] }

end AccessGuard

namespace AccessGuard

/-! ## Claim theorems -/

/-- C1 counterexample: the frame-type union declared in `AIChat.tsx` has
no `pii_detected` member, and the rendering recognizes the layer value
`llama_guard` — a value outside the claimed set
`{content_safety, guardrails}` — as the content-safety layer, while the
claimed value `content_safety` is not recognized as such. -/
theorem C1_counterexample :
    messageTypeOfString "pii_detected" = none ∧
    layerLabel "llama_guard" = "Llama Guard" ∧
    "llama_guard" ∉ (["content_safety", "guardrails"] : List String) ∧
    layerLabel "content_safety" = "Guardrails" := by
  decide

/-- C1 (amended): every chat frame's type is drawn exactly from the
declared union {user, assistant, blocked, connection, error} — in
particular there is no `pii_detected` frame type — and a blocked frame's
layer is rendered as the content-safety layer (`Llama Guard`) exactly
when it equals `llama_guard`, every other layer value being rendered
`Guardrails`; category and reason are optional fields. -/
theorem C1_frame_types (s l : String) (hl : l ≠ "llama_guard") :
    ((messageTypeOfString s).isSome ↔ s ∈ declaredMessageTypes) ∧
    layerLabel "llama_guard" = "Llama Guard" ∧
    layerLabel l = "Guardrails" := by
  refine ⟨?_, by simp [layerLabel], by simp [layerLabel, hl]⟩
  unfold messageTypeOfString declaredMessageTypes
  split_ifs <;> simp [*]

/-- C1 witness: the amended statement evaluated at the frame type
`blocked` and the layer value `guardrails`. -/
theorem C1_witness :
    ((messageTypeOfString "blocked").isSome ↔ "blocked" ∈ declaredMessageTypes) ∧
    layerLabel "llama_guard" = "Llama Guard" ∧
    layerLabel "guardrails" = "Guardrails" :=
  C1_frame_types "blocked" "guardrails" (by decide)

/-- C2: every outcome a turn records with `cache_hit = true` carries
`cost = 0` and `tokens_used = 0`, for any adapters, role, cache and
input. -/
theorem C2_cache_hit_costs_nothing (ad : Adapters) (role : Role) (c : Cache)
    (input : String) (o : QueryOutcome)
    (ho : o ∈ (runTurn ad role c input).outcomes)
    (hh : o.cache_hit = true) :
    o.cost = 0 ∧ o.tokens_used = 0 := by
  cases hb : isBlank input with
  | true => simp [runTurn, hb] at ho
  | false =>
    rcases hsc : screen ad role input with ⟨sr, st⟩
    cases sr with
    | piiRejected masked dets =>
      simp [runTurn, hb, hsc] at ho
      subst ho; simp at hh
    | blockedSafety category confidence =>
      simp [runTurn, hb, hsc] at ho
      subst ho; simp at hh
    | blockedPolicy reason =>
      simp [runTurn, hb, hsc] at ho
      subst ho; simp at hh
    | proceed masked restricted =>
      rcases hl : lookupEntry c (role, normalizeQuery masked) with _ | e
      · simp [runTurn, hb, hsc, resolve, hl] at ho
        subst ho; simp at hh
      · simp [runTurn, hb, hsc, resolve, hl] at ho
        subst ho; exact ⟨rfl, rfl⟩

/-- C2 witness: a turn served from `demoCache` records exactly the
zero-cost, zero-token cache-hit outcome. -/
theorem C2_witness : demoHitOutcome.cost = 0 ∧ demoHitOutcome.tokens_used = 0 :=
  C2_cache_hit_costs_nothing demoAdapters Role.employee demoCache "q"
    demoHitOutcome (by decide) (by decide)

/-- C3: the transport closes with 4001 exactly for a missing credential
and with 4002 exactly for an invalid or expired one; the codes are
distinct; the client handler schedules re-authentication for both; and a
connect with an expired credential closes with 4002 before any turn is
processed. -/
theorem C3_close_codes :
    (∀ c, closeCodeFor c = some 4001 ↔ c = CredState.missing) ∧
    (∀ c, closeCodeFor c = some 4002 ↔ (c = CredState.invalid ∨ c = CredState.expired)) ∧
    (4001 : Nat) ≠ 4002 ∧
    (oncloseAction 4001).reauth = true ∧
    (oncloseAction 4002).reauth = true ∧
    connectChat CredState.expired = { closeCode := some 4002, turnsProcessed := 0 } := by
  refine ⟨fun c => by cases c <;> decide, fun c => by cases c <;> decide,
    by decide, by decide, by decide, by decide⟩

/-- C4: an empty or whitespace-only inbound message is rejected at once
with an `error` frame; no pipeline stage runs, no outcome is recorded and
the cache is untouched; neither client form transmits a blank input
(`sendMessage` leaves the state unchanged, `handleSubmit` posts nothing
and sets the error text). -/
theorem C4_blank_input_rejected (ad : Adapters) (role : Role) (c : Cache)
    (input now selectedModel : String) (s : ChatState)
    (h : isBlank input = true) (hs : isBlank s.inputMessage = true) :
    (runTurn ad role c input).frames =
      [{ type := FrameType.error, message := "Empty message", layer := none,
         category := none, reason := none, detections := [] }] ∧
    (runTurn ad role c input).stagesRun = [] ∧
    (runTurn ad role c input).outcomes = [] ∧
    (runTurn ad role c input).cache = c ∧
    sendMessage now s = s ∧
    handleSubmit input selectedModel = (none, some "Please enter a query") := by
  refine ⟨?_, ?_, ?_, ?_, ?_, ?_⟩ <;>
    simp [runTurn, sendMessage, handleSubmit, h, hs]

/-- C4 witness: the statement evaluated at the whitespace-only input
`"   "` and a client state whose input box holds a single space. -/
theorem C4_witness :
    (runTurn demoAdapters Role.employee demoCache "   ").frames =
      [{ type := FrameType.error, message := "Empty message", layer := none,
         category := none, reason := none, detections := [] }] ∧
    (runTurn demoAdapters Role.employee demoCache "   ").stagesRun = [] ∧
    (runTurn demoAdapters Role.employee demoCache "   ").outcomes = [] ∧
    (runTurn demoAdapters Role.employee demoCache "   ").cache = demoCache ∧
    sendMessage "t" demoBlankState = demoBlankState ∧
    handleSubmit "   " "llama" = (none, some "Please enter a query") :=
  C4_blank_input_rejected demoAdapters Role.employee demoCache "   " "t" "llama"
    demoBlankState (by decide) (by decide)

/-- C5: every turn emits exactly one terminal frame, and a turn that
emits a `blocked` or `pii_detected` frame emits no `assistant` frame, for
any adapters, role, cache and input. -/
theorem C5_single_terminal_frame (ad : Adapters) (role : Role) (c : Cache)
    (input : String) :
    ((runTurn ad role c input).frames.filter Frame.isTerminal).length = 1 ∧
    noAssistantAfterBlock (runTurn ad role c input).frames = true := by
  cases hb : isBlank input with
  | true => simp [runTurn, hb, Frame.isTerminal, noAssistantAfterBlock]
  | false =>
    rcases hsc : screen ad role input with ⟨sr, st⟩
    cases sr with
    | piiRejected masked dets =>
      simp [runTurn, hb, hsc, Frame.isTerminal, noAssistantAfterBlock]
    | blockedSafety category confidence =>
      simp [runTurn, hb, hsc, Frame.isTerminal, noAssistantAfterBlock]
    | blockedPolicy reason =>
      simp [runTurn, hb, hsc, Frame.isTerminal, noAssistantAfterBlock]
    | proceed masked restricted =>
      rcases hl : lookupEntry c (role, normalizeQuery masked) with _ | e <;>
        simp [runTurn, hb, hsc, resolve, hl, Frame.isTerminal, noAssistantAfterBlock]

/-- C6: every query request serializes to exactly the fields
`{query, model}` and every query response to exactly the fields
`{answer, sources, cache_hit, response_time, tokens_used, cost,
model_used, out_of_scope}`, in the declared order. -/
theorem C6_query_endpoint_shapes (req : QueryRequest) (resp : QueryResponse) :
    (QueryRequest.toFields req).map Prod.fst = ["query", "model"] ∧
    (QueryResponse.toFields resp).map Prod.fst =
      ["answer", "sources", "cache_hit", "response_time", "tokens_used",
       "cost", "model_used", "out_of_scope"] :=
  ⟨rfl, rfl⟩

/-- C7 counterexample: the declared metrics response shape has no field
named `cost_breakdown_by_model` and is not the six-field summary shape the
claim states — the by-model breakdown lives under `cost_breakdown` and
five further fields are present. -/
theorem C7_counterexample :
    "cost_breakdown_by_model" ∉ metricsDataFields ∧
    metricsDataFields ≠
      ["total_queries", "cache_hits", "api_calls", "total_cost",
       "money_saved", "cost_breakdown_by_model"] := by
  decide

/-- C7 (amended): for every request with range `daily` or `monthly`, the
declared response shape contains the summary quantities `total_queries`,
`cache_hits`, `api_calls`, `total_cost`, `money_saved` and the per-model
cost breakdown under the field `cost_breakdown`, together with five
further derived fields; the chart sub-resource fetched for `daily` is the
hourly series `/metrics/hourly?hours=24` and for `monthly` the per-day
series `/metrics/monthly?days=30`. -/
theorem C7_metrics_shape (range : String)
    (h : range = "daily" ∨ range = "monthly") :
    (range = "daily" → chartUrl range = hourlyUrl) ∧
    (range = "monthly" → chartUrl range = monthlyUrl) ∧
    (∀ f ∈ (["total_queries", "cache_hits", "api_calls", "total_cost",
             "money_saved", "cost_breakdown"] : List String),
       f ∈ metricsDataFields) := by
  rcases h with h | h <;> subst h <;>
    exact ⟨by decide, by decide, by decide⟩

/-- C7 witness: the amended statement evaluated at range `daily`. -/
theorem C7_witness :
    ("daily" = "daily" → chartUrl "daily" = hourlyUrl) ∧
    ("daily" = "monthly" → chartUrl "daily" = monthlyUrl) ∧
    (∀ f ∈ (["total_queries", "cache_hits", "api_calls", "total_cost",
             "money_saved", "cost_breakdown"] : List String),
       f ∈ metricsDataFields) :=
  C7_metrics_shape "daily" (Or.inl rfl)

/-- C8: `money_saved` equals `cache_hits × average cost per model call`;
cross-multiplied against the call count it equals
`cache_hits × total recorded cost`, so it is derived from the recorded
costs; and two ledgers with the same hit and call counts but different
recorded costs yield different savings, so it is not a fixed constant. -/
theorem C8_money_saved_derived (L : Ledger) (h : apiCalls L ≠ 0) :
    (summary L).money_saved = (cacheHits L : ℚ) * avgCostPerModelCall L ∧
    (summary L).money_saved * (apiCalls L : ℚ) = (cacheHits L : ℚ) * totalCost L ∧
    (∃ L1 L2 : Ledger,
      cacheHits L1 = cacheHits L2 ∧ apiCalls L1 = apiCalls L2 ∧
      (summary L1).money_saved ≠ (summary L2).money_saved) := by
  refine ⟨rfl, ?_, ?_⟩
  · have hq : ((apiCalls L : ℚ)) ≠ 0 := Nat.cast_ne_zero.mpr h
    show ((cacheHits L : ℚ) * avgCostPerModelCall L) * (apiCalls L : ℚ) = _
    rw [avgCostPerModelCall, mul_assoc, div_mul_cancel₀ _ hq]
  · refine ⟨[hitRecord, callRecord 2], [hitRecord, callRecord 4], rfl, rfl, ?_⟩
    have e2 : (summary [hitRecord, callRecord 2]).money_saved = 2 := by
      norm_num [summary, avgCostPerModelCall, cacheHits, apiCalls, totalCost,
        List.filter, hitRecord, callRecord]
    have e4 : (summary [hitRecord, callRecord 4]).money_saved = 4 := by
      norm_num [summary, avgCostPerModelCall, cacheHits, apiCalls, totalCost,
        List.filter, hitRecord, callRecord]
    rw [e2, e4]
    norm_num

/-- C8 witness: the statement evaluated at the two-record ledger of one
cache hit and one model call of cost 2. -/
theorem C8_witness :
    (summary [hitRecord, callRecord 2]).money_saved =
      (cacheHits [hitRecord, callRecord 2] : ℚ) *
        avgCostPerModelCall [hitRecord, callRecord 2] ∧
    (summary [hitRecord, callRecord 2]).money_saved *
        (apiCalls [hitRecord, callRecord 2] : ℚ) =
      (cacheHits [hitRecord, callRecord 2] : ℚ) *
        totalCost [hitRecord, callRecord 2] ∧
    (∃ L1 L2 : Ledger,
      cacheHits L1 = cacheHits L2 ∧ apiCalls L1 = apiCalls L2 ∧
      (summary L1).money_saved ≠ (summary L2).money_saved) :=
  C8_money_saved_derived [hitRecord, callRecord 2] (by decide)

/-- C9: both transcript operations of `AIChat.tsx` are append-only: the
server-frame handler and `sendMessage` each either leave the transcript
unchanged or append exactly one message at its end, so no existing
message is mutated, reordered or removed. -/
theorem C9_transcript_append_only (prev : List Message)
    (parsed : Option Message) (now : String) (s : ChatState) :
    (∃ t, onmessageUpdate prev parsed = prev ++ t ∧ t.length ≤ 1) ∧
    (∃ t, (sendMessage now s).messages = s.messages ++ t ∧ t.length ≤ 1) := by
  constructor
  · cases parsed with
    | none => exact ⟨[], by simp [onmessageUpdate]⟩
    | some d => exact ⟨[d], by simp [onmessageUpdate]⟩
  · cases hb : isBlank s.inputMessage with
    | true => exact ⟨[], by simp [sendMessage, hb]⟩
    | false =>
      cases hws : s.ws with
      | none => exact ⟨[], by simp [sendMessage, hb, hws]⟩
      | some w =>
        by_cases hr : w.readyState = wsOPEN
        · refine ⟨[userMessageOf s.inputMessage now], ?_, by simp⟩
          simp [sendMessage, userMessageOf, hb, hws, hr]
        · exact ⟨[], by simp [sendMessage, hb, hws, hr]⟩

/-- C10: invoking `sendMessage` with a non-blank input while the socket
is absent or not OPEN leaves the transcript, the sent payloads and the
input box unchanged and only sets the connection-error text; conversely,
whenever `sendMessage` changes the transcript, the input was non-blank
and the socket was present and OPEN. -/
theorem C10_send_requires_open (now : String) (s : ChatState)
    (hne : isBlank s.inputMessage = false)
    (hws : ∀ w, s.ws = some w → w.readyState ≠ wsOPEN) :
    (sendMessage now s).messages = s.messages ∧
    (sendMessage now s).sent = s.sent ∧
    (sendMessage now s).inputMessage = s.inputMessage ∧
    (sendMessage now s).connectionError = "Not connected. Please reconnect." ∧
    (∀ s2 now2, (sendMessage now2 s2).messages ≠ s2.messages →
      isBlank s2.inputMessage = false ∧
      ∃ w, s2.ws = some w ∧ w.readyState = wsOPEN) := by
  have hmain : sendMessage now s =
      { s with connectionError := "Not connected. Please reconnect." } := by
    cases hws2 : s.ws with
    | none => simp [sendMessage, hne, hws2]
    | some w => simp [sendMessage, hne, hws2, hws w hws2]
  refine ⟨by rw [hmain], by rw [hmain], by rw [hmain], by rw [hmain], ?_⟩
  intro s2 now2 hchanged
  cases hb : isBlank s2.inputMessage with
  | true => exact absurd (by simp [sendMessage, hb]) hchanged
  | false =>
    refine ⟨rfl, ?_⟩
    cases hws2 : s2.ws with
    | none => exact absurd (by simp [sendMessage, hb, hws2]) hchanged
    | some w =>
      by_cases hr : w.readyState = wsOPEN
      · exact ⟨w, rfl, hr⟩
      · exact absurd (by simp [sendMessage, hb, hws2, hr]) hchanged

/-- C10 witness: the statement evaluated at a disconnected state
(`ws = none`) holding the non-blank input `hi`. -/
theorem C10_witness :
    (sendMessage "t" demoDisconnected).messages = demoDisconnected.messages ∧
    (sendMessage "t" demoDisconnected).sent = demoDisconnected.sent ∧
    (sendMessage "t" demoDisconnected).inputMessage = demoDisconnected.inputMessage ∧
    (sendMessage "t" demoDisconnected).connectionError =
      "Not connected. Please reconnect." ∧
    (∀ s2 now2, (sendMessage now2 s2).messages ≠ s2.messages →
      isBlank s2.inputMessage = false ∧
      ∃ w, s2.ws = some w ∧ w.readyState = wsOPEN) :=
  C10_send_requires_open "t" demoDisconnected (by decide)
    (fun w h => Option.noConfusion h)

end AccessGuard
